import Mathlib

/-!
Shallow embedding of the two Express services in this repository:

* Service A (src/unnamed/part_000), port 5001: route GET /fetch-master-data
  over the schema-less model bound to the collection named master.
* Service B (src/hcp_data.js), port 5000, with the permissive CORS middleware
  installed before the routes: routes GET /fetch-data (collection hcp),
  GET /fetch-referal-data (collection referal), and GET /test.

Documents are schema-less JSON values.  A database read either succeeds with
the full list of documents of the bound collection or rejects with a
JavaScript error value.  Route handlers are total functions from the read
outcome to the single HTTP response they send; the master-data handler is
additionally embedded as a send log to reason about its early return.
-/

/-- Schema-less JSON document values, as stored in the collections and sent
in response bodies. -/
inductive Json where
  | null
  | bool (b : Bool)
  | num (n : Int)
  | str (s : String)
  | arr (elems : List Json)
  | obj (fields : List (String × Json))

/-- A JavaScript error value as seen by a catch block: a message string
(the err.message property) together with the enumerable fields that
JSON-serialising the raw error object yields (a JS error is an object, so
its serialisation is always a Json.obj, never a bare string). -/
structure JsError where
  message : String
  fields : List (String × Json)

/-- Outcome of awaiting an unfiltered find() on a collection: the full
document list, or a rejection with a JS error. -/
inductive ReadResult where
  | ok (docs : List Json)
  | err (e : JsError)

/-- An HTTP response as assembled by Express: status code, response
headers, JSON body. -/
structure HttpResponse where
  status : Nat
  headers : List (String × String)
  body : Json

/-- Field lookup on a JSON object (none on non-objects). -/
def Json.getField : Json → String → Option Json
  | .obj fields, k => List.lookup k fields
  | _, _ => none

/-- Whether a JSON value is an object carrying the given field. -/
def Json.hasField (j : Json) (k : String) : Bool :=
  (j.getField k).isSome

/-- res.status(s).json(b): a response with the given status and JSON body
and no route-added headers. res.json(b) alone is respond 200 b. -/
def respond (status : Nat) (body : Json) : HttpResponse :=
  ⟨status, [], body⟩

/-- Handler of GET /fetch-master-data on service A (src/unnamed/part_000):
on an empty result respond 404, on a non-empty result respond 200 with the
document array, on a rejection respond 500 with the route message and the
raw error object. -/
def fetchMasterData : ReadResult → HttpResponse
  | .ok masterData =>
      if masterData.length = 0 then
        respond 404 (.obj [("message", .str "No Master Data Found")])
      else
        respond 200 (.arr masterData)
  | .err e =>
      respond 500 (.obj [("message", .str "Error fetching Master Data"),
                         ("error", .obj e.fields)])

/-- Handler of GET /fetch-data on service B (src/hcp_data.js): respond 200
with the document array, or 500 with the route message and err.message. -/
def fetchData : ReadResult → HttpResponse
  | .ok data => respond 200 (.arr data)
  | .err e =>
      respond 500 (.obj [("message", .str "Error fetching HCP data"),
                         ("error", .str e.message)])

/-- Handler of GET /fetch-referal-data on service B (src/hcp_data.js):
respond 200 with the document array, or 500 with the message text the
source uses there (the string is the same one as in the master route) and
err.message. -/
def fetchReferalData : ReadResult → HttpResponse
  | .ok refer_data => respond 200 (.arr refer_data)
  | .err e =>
      respond 500 (.obj [("message", .str "Error fetching Master Data"),
                         ("error", .str e.message)])

/-- Handler of GET /test on service B: a fixed JSON acknowledgement, no
database access (the definition takes no read outcome at all). -/
def testHandler : HttpResponse :=
  respond 200 (.obj [("message", .str "API is working!")])

/-- The three document collections of the zolgensma database. -/
structure Database where
  master : List Json
  hcp : List Json
  referal : List Json

/-- State of the single mongoose connection a process holds: connected to a
database, or left in the failed state after the one startup attempt. -/
inductive DbConn where
  | connected (db : Database)
  | failed (e : JsError)

/-- MasterData.find(): all documents of the master collection, or a
rejection when the connection is failed. -/
def readMaster : DbConn → ReadResult
  | .connected db => .ok db.master
  | .failed e => .err e

/-- HcpData.find(). -/
def readHcp : DbConn → ReadResult
  | .connected db => .ok db.hcp
  | .failed e => .err e

/-- ReferalData.find(). -/
def readReferal : DbConn → ReadResult
  | .connected db => .ok db.referal
  | .failed e => .err e

/-- The routes service A registers. -/
inductive RouteA where
  | fetchMasterData
deriving DecidableEq

/-- The routes service B registers. -/
inductive RouteB where
  | fetchData
  | fetchReferalData
  | test
deriving DecidableEq

/-- Service A dispatch: the one route, no middleware. -/
def serviceA (conn : DbConn) : RouteA → HttpResponse
  | .fetchMasterData => fetchMasterData (readMaster conn)

/-- Service B route table, before middleware. -/
def serviceBRoute (conn : DbConn) : RouteB → HttpResponse
  | .fetchData => fetchData (readHcp conn)
  | .fetchReferalData => fetchReferalData (readReferal conn)
  | .test => testHandler

/-- The cors() middleware with no options, as installed by app.use(cors())
in src/hcp_data.js: adds the permissive Access-Control-Allow-Origin header
to the response of every route registered after it. -/
def corsMiddleware (r : HttpResponse) : HttpResponse :=
  ⟨r.status, ("Access-Control-Allow-Origin", "*") :: r.headers, r.body⟩

/-- Service B dispatch: every route behind the CORS middleware. -/
def serviceB (conn : DbConn) (route : RouteB) : HttpResponse :=
  corsMiddleware (serviceBRoute conn route)

/-- Startup of either process: one mongoose.connect attempt; success and
failure are only logged, and in both cases the process goes on to listen
with the resulting connection state (no retry, no exit). -/
def startup : Except JsError Database → DbConn
  | .ok db => .connected db
  | .error e => .failed e

/-- The master-data handler body as the log of responses it sends,
statement by statement: the 404 branch ends in an explicit return, so the
200 send below it is not reached. -/
def masterHandlerSends (r : ReadResult) : List HttpResponse := Id.run do
  match r with
  | .ok masterData =>
      let mut sent : List HttpResponse := []
      if masterData.length = 0 then
        sent := sent ++ [respond 404 (.obj [("message", .str "No Master Data Found")])]
        return sent
      sent := sent ++ [respond 200 (.arr masterData)]
      return sent
  | .err e =>
      return [respond 500 (.obj [("message", .str "Error fetching Master Data"),
                                 ("error", .obj e.fields)])]

/-- C1: on /fetch-master-data, when the unfiltered read of the master
collection succeeds with zero documents, the response is 404 with body
exactly the object with the single message field "No Master Data Found". -/
theorem C1_master_empty_404 (docs : List Json) (h : docs.length = 0) :
    fetchMasterData (.ok docs) =
      respond 404 (.obj [("message", .str "No Master Data Found")]) := by
  simp [fetchMasterData, h]

theorem C1_master_empty_404_witness :
    ([] : List Json).length = 0 ∧
      fetchMasterData (.ok []) =
        respond 404 (.obj [("message", .str "No Master Data Found")]) :=
  ⟨rfl, C1_master_empty_404 [] rfl⟩

/-- C2: on /fetch-master-data, when the read succeeds with N > 0 documents,
the response is 200 and its body is the JSON array of exactly those
documents in the order the store returned them. -/
theorem C2_master_nonempty_200 (docs : List Json) (h : 0 < docs.length) :
    fetchMasterData (.ok docs) = respond 200 (.arr docs) := by
  have h' : docs.length ≠ 0 := Nat.pos_iff_ne_zero.mp h
  simp [fetchMasterData, h']

theorem C2_master_nonempty_200_witness :
    0 < ([Json.num 1] : List Json).length ∧
      fetchMasterData (.ok [Json.num 1]) = respond 200 (.arr [Json.num 1]) :=
  ⟨Nat.zero_lt_one, C2_master_nonempty_200 [Json.num 1] Nat.zero_lt_one⟩

/-- C3: on /fetch-data and /fetch-referal-data, a successful read always
yields 200 with the full document array, the empty array included, and
neither route ever responds 404 on any read outcome. -/
theorem C3_hcp_referal_200 :
    (∀ docs : List Json,
        fetchData (.ok docs) = respond 200 (.arr docs) ∧
        fetchReferalData (.ok docs) = respond 200 (.arr docs)) ∧
    (∀ r : ReadResult,
        (fetchData r).status ≠ 404 ∧ (fetchReferalData r).status ≠ 404) := by
  refine ⟨fun docs => ⟨rfl, rfl⟩, fun r => ?_⟩
  cases r <;> simp [fetchData, fetchReferalData, respond]

/-- C4: on each of the three data routes, a rejected read yields a 500
response whose JSON body carries both a message field and an error field;
the handler returns a response rather than letting the error escape. -/
theorem C4_read_failure_500 (e : JsError) :
    ((fetchMasterData (.err e)).status = 500 ∧
      (fetchMasterData (.err e)).body.hasField "message" = true ∧
      (fetchMasterData (.err e)).body.hasField "error" = true) ∧
    ((fetchData (.err e)).status = 500 ∧
      (fetchData (.err e)).body.hasField "message" = true ∧
      (fetchData (.err e)).body.hasField "error" = true) ∧
    ((fetchReferalData (.err e)).status = 500 ∧
      (fetchReferalData (.err e)).body.hasField "message" = true ∧
      (fetchReferalData (.err e)).body.hasField "error" = true) :=
  ⟨⟨rfl, rfl, rfl⟩, ⟨rfl, rfl, rfl⟩, ⟨rfl, rfl, rfl⟩⟩

/-- C5 counterexample: at the concrete error with message "boom", the 500
message of /fetch-referal-data equals the 500 message of
/fetch-master-data, both being "Error fetching Master Data", so the
referral message neither identifies its route nor differs from the master
message. -/
theorem C5_counterexample :
    (fetchReferalData (.err ⟨"boom", []⟩)).body.getField "message" =
        (fetchMasterData (.err ⟨"boom", []⟩)).body.getField "message" ∧
      (fetchReferalData (.err ⟨"boom", []⟩)).body.getField "message" =
        some (.str "Error fetching Master Data") :=
  ⟨rfl, rfl⟩

/-- C5 amended: the master and hcp routes use distinct 500 message texts,
but the referral route reuses the master route message text verbatim, so
only two distinct messages exist among the three routes. -/
theorem C5_amended_messages (e : JsError) :
    (fetchMasterData (.err e)).body.getField "message" =
        some (.str "Error fetching Master Data") ∧
      (fetchData (.err e)).body.getField "message" =
        some (.str "Error fetching HCP data") ∧
      (fetchReferalData (.err e)).body.getField "message" =
        (fetchMasterData (.err e)).body.getField "message" ∧
      Json.str "Error fetching Master Data" ≠ Json.str "Error fetching HCP data" :=
  ⟨rfl, rfl, rfl, by simp⟩

/-- C6: on a failed read, service A puts the raw error object (an object
value) in the error field, while both service B routes put only the
err.message string there, and the two shapes are never equal. -/
theorem C6_error_payload_shapes (e : JsError) :
    (fetchMasterData (.err e)).body.getField "error" = some (.obj e.fields) ∧
      (fetchData (.err e)).body.getField "error" = some (.str e.message) ∧
      (fetchReferalData (.err e)).body.getField "error" = some (.str e.message) ∧
      Json.obj e.fields ≠ Json.str e.message :=
  ⟨rfl, rfl, rfl, by simp⟩

/-- C7: /test on service B answers 200 with exactly the fixed
acknowledgement body whatever the connection state is; its dispatch is the
constant testHandler, which takes no read outcome at all. -/
theorem C7_test_route (conn : DbConn) :
    (serviceB conn .test).status = 200 ∧
      (serviceB conn .test).body = .obj [("message", .str "API is working!")] ∧
      serviceBRoute conn .test = testHandler :=
  ⟨rfl, rfl, rfl⟩

/-- C8: every response of every service B route carries the permissive
Access-Control-Allow-Origin header added by the CORS middleware. -/
theorem C8_cors_all_routes (conn : DbConn) (route : RouteB) :
    ("Access-Control-Allow-Origin", "*") ∈ (serviceB conn route).headers :=
  List.mem_cons_self _ _

/-- C9: when the single startup connection attempt fails, the process keeps
listening with a failed connection (startup returns a server state rather
than exiting), every subsequent data-route request surfaces as a 500 query
failure, and the database-free /test route still answers 200. -/
theorem C9_startup_failure (e : JsError) :
    startup (.error e) = DbConn.failed e ∧
      (serviceA (startup (.error e)) .fetchMasterData).status = 500 ∧
      (serviceB (startup (.error e)) .fetchData).status = 500 ∧
      (serviceB (startup (.error e)) .fetchReferalData).status = 500 ∧
      (serviceB (startup (.error e)) .test).status = 200 :=
  ⟨rfl, rfl, rfl, rfl, rfl⟩

/-- C10: the /fetch-master-data handler sends exactly one response on every
read outcome, its send log agrees with the single-response handler, and no
request receives both a 404 and a 200. -/
theorem C10_single_send (r : ReadResult) :
    (masterHandlerSends r).length = 1 ∧
      masterHandlerSends r = [fetchMasterData r] ∧
      ¬ ((∃ p ∈ masterHandlerSends r, p.status = 404) ∧
          (∃ q ∈ masterHandlerSends r, q.status = 200)) := by
  cases r with
  | ok docs =>
      by_cases h : docs.length = 0 <;>
        simp [masterHandlerSends, fetchMasterData, h, respond, Id.run]
  | err e =>
      simp [masterHandlerSends, fetchMasterData, respond, Id.run]
